import Mathlib

/-!
Shallow embedding of the go-sftpc SFTP client (src/sftpc.go).

Remote and local I/O is abstracted by explicit oracles: file contents are
lists of bytes (as natural numbers), stat results are inductive data, and the
network side effects performed by each operation are recorded in an event
trace so that statements about call order and about which effects happen can
be proved.  Each definition mirrors one function of the source file; line
numbers in the doc comments refer to src/sftpc.go.
-/

namespace Sftpc

/-- Entry returned by a remote directory listing, mirroring the two pieces of
an os.FileInfo that the code inspects: Name() and IsDir(). -/
structure FInfo where
  name : String
  isDir : Bool
  deriving DecidableEq, Repr

/-- Result of a remote Stat call: an existing file with its byte content, a
permission-denied error, a not-found error, or any other stat error. -/
inductive RemoteFile
  | file (content : List Nat)
  | permDenied
  | notFound
  | statErr
  deriving DecidableEq, Repr

/-- Result of a local os.Stat call: an existing file with its byte content,
a not-found error, or any other stat error. -/
inductive LocalStat
  | file (content : List Nat)
  | notFound
  | statErr
  deriving DecidableEq, Repr

/-- Size reported by a remote stat; 0 when the file is absent. -/
def remoteSizeOf : RemoteFile → Nat
  | RemoteFile.file c => c.length
  | _ => 0

/-! ## Session manager: ensureConnectedWithRetries (lines 516-526) -/

/-- Events emitted by ensureConnectedWithRetries: one ensureConnected attempt
(indexed from 0), and the fixed 2-second sleep of line 523. -/
inductive ECEvent
  | attempt (i : Nat)
  | sleep2
  deriving DecidableEq, Repr

/-- Errors around ensureConnectedWithRetries.  An attempt that fails produces
an underlying error (modelled by a numeric identity); the function itself can
only ever return the synthetic exhausted error built at line 525. -/
inductive ECErr
  | underlying (e : Nat)
  | exhausted (n : Nat)
  deriving DecidableEq, Repr

/-- Loop body of ensureConnectedWithRetries (lines 517-525).  The oracle errs
gives the outcome of the i-th call to ensureConnected: none means the attempt
succeeded, some e means it failed with underlying error e.  When the loop
index reaches the bound, the code returns the fresh error of line 525, which
does not wrap any underlying attempt error. -/
def ecwrGo (errs : Nat → Option Nat) (total : Nat) : Nat → Nat → List ECEvent × Option ECErr
  | _, 0 => ([], some (ECErr.exhausted total))
  | i, fuel + 1 =>
    match errs i with
    | none => ([ECEvent.attempt i], none)
    | some _ =>
      let r := ecwrGo errs total (i + 1) fuel
      (ECEvent.attempt i :: ECEvent.sleep2 :: r.1, r.2)

/-- ensureConnectedWithRetries (lines 516-526): run up to n attempts of
ensureConnected, sleeping 2 seconds after every failed attempt. -/
def ensureConnectedWithRetries (errs : Nat → Option Nat) (n : Nat) : List ECEvent × Option ECErr :=
  ecwrGo errs n 0 n

/-- Trace of k failed attempts starting at index i: each attempt is followed
by the 2-second sleep. -/
def ecTraceFrom (i : Nat) : Nat → List ECEvent
  | 0 => []
  | k + 1 => ECEvent.attempt i :: ECEvent.sleep2 :: ecTraceFrom (i + 1) k

/-! ## Session manager: ReConnect (lines 347-427) -/

/-- Connection handle (ssh or sftp): an identity plus whether it is open. -/
structure Handle where
  hid : Nat
  isOpen : Bool
  deriving DecidableEq, Repr

/-- The two handle fields of SFTPClient (lines 18-19).  In Go a field holds
nil (here: none) or a pointer to a client object (here: some handle). -/
structure SessState where
  sshClient : Option Handle
  sftpClient : Option Handle
  deriving DecidableEq, Repr

/-- Events of a ReConnect call: closing the previous handles (lines 352-357),
the dial (line 412), the sftp client creation (line 417), and the close of the
freshly dialed ssh client when sftp creation fails (line 419). -/
inductive RcEv
  | closeOldSftp
  | closeOldSsh
  | dialAttempt
  | sftpAttempt
  | closeNewSsh
  deriving DecidableEq, Repr

/-- Errors ReConnect can return: an authentication-material failure
(lines 363-402), a dial failure (line 414), or sftp client creation failure
(line 420). -/
inductive RcErr
  | authFailed
  | dialFailed
  | sftpFailed
  deriving DecidableEq, Repr

/-- Result of a ReConnect call: event trace, the two handle fields after the
call, and the returned error if any. -/
structure RcOut where
  events : List RcEv
  state : SessState
  err : Option RcErr
  deriving DecidableEq, Repr

/-- Closing a handle marks it closed; the pointer itself is unchanged. -/
def closeHandle (h : Handle) : Handle := ⟨h.hid, false⟩

/-- ReConnect (lines 347-427).  authOk abstracts the key-reading and parsing
steps, dialRes the ssh.Dial outcome (some id = new ssh handle), sftpRes the
sftp.NewClient outcome.  The code closes the old handles first but never
assigns nil to the fields: on any failure it returns with the fields still
holding their previous (now closed) values; only on full success are both
fields overwritten (lines 423-424). -/
def ReConnect (s : SessState) (authOk : Bool) (dialRes sftpRes : Option Nat) : RcOut :=
  let closeEvs := (if s.sftpClient.isSome then [RcEv.closeOldSftp] else []) ++
                  (if s.sshClient.isSome then [RcEv.closeOldSsh] else [])
  let s1 : SessState := ⟨s.sshClient.map closeHandle, s.sftpClient.map closeHandle⟩
  if !authOk then ⟨closeEvs, s1, some RcErr.authFailed⟩
  else
    match dialRes with
    | none => ⟨closeEvs ++ [RcEv.dialAttempt], s1, some RcErr.dialFailed⟩
    | some sshId =>
      match sftpRes with
      | none =>
        ⟨closeEvs ++ [RcEv.dialAttempt, RcEv.sftpAttempt, RcEv.closeNewSsh], s1,
         some RcErr.sftpFailed⟩
      | some sftpId =>
        ⟨closeEvs ++ [RcEv.dialAttempt, RcEv.sftpAttempt],
         ⟨some ⟨sshId, true⟩, some ⟨sftpId, true⟩⟩, none⟩

/-- True when exactly one of the two handle fields is non-nil. -/
def exactlyOneNonNil (s : SessState) : Bool :=
  s.sshClient.isSome != s.sftpClient.isSome

/-! ## Transfer engine: UploadFile (lines 107-158) -/

/-- Events emitted by the upload paths. -/
inductive UEv
  | ensureConn
  | statLocal
  | statRemote
  | openLocal
  | seekLocal (off : Nat)
  | openRemoteTrunc
  | copyToRemote
  | createRemote
  | chunkCopy
  deriving DecidableEq, Repr

/-- Errors the upload paths can return. -/
inductive UpErr
  | nilClient
  | reconnectFailed
  | localStatFailed
  | remoteStatFailed
  deriving DecidableEq, Repr

/-- Result of an upload: event trace, remote file after the call, number of
bytes written to the remote file, and the returned error if any. -/
structure UpOut where
  events : List UEv
  remoteAfter : RemoteFile
  written : Nat
  err : Option UpErr
  deriving DecidableEq, Repr

/-- UploadFile (lines 107-158): nil guard, single ensureConnected, stat local
(any error is fatal), stat remote (absence counts as size 0, permission or
other stat errors are fatal), open local, seek local to the remote size, open
the remote file with O_WRONLY plus O_CREATE plus O_TRUNC (line 143), then
io.Copy.  The truncating open empties the remote file and the new handle
writes from offset 0, so the copy leaves the remote file holding exactly the
local bytes from the seek point on. -/
def UploadFile (clientNil ensureOk : Bool) (localF : LocalStat) (remote : RemoteFile) : UpOut :=
  if clientNil then ⟨[], remote, 0, some UpErr.nilClient⟩
  else if !ensureOk then ⟨[UEv.ensureConn], remote, 0, some UpErr.reconnectFailed⟩
  else
    match localF with
    | LocalStat.notFound =>
      ⟨[UEv.ensureConn, UEv.statLocal], remote, 0, some UpErr.localStatFailed⟩
    | LocalStat.statErr =>
      ⟨[UEv.ensureConn, UEv.statLocal], remote, 0, some UpErr.localStatFailed⟩
    | LocalStat.file lc =>
      match remote with
      | RemoteFile.permDenied =>
        ⟨[UEv.ensureConn, UEv.statLocal, UEv.statRemote], remote, 0,
         some UpErr.remoteStatFailed⟩
      | RemoteFile.statErr =>
        ⟨[UEv.ensureConn, UEv.statLocal, UEv.statRemote], remote, 0,
         some UpErr.remoteStatFailed⟩
      | RemoteFile.file rc =>
        ⟨[UEv.ensureConn, UEv.statLocal, UEv.statRemote, UEv.openLocal,
          UEv.seekLocal rc.length, UEv.openRemoteTrunc, UEv.copyToRemote],
         RemoteFile.file (lc.drop rc.length), (lc.drop rc.length).length, none⟩
      | RemoteFile.notFound =>
        ⟨[UEv.ensureConn, UEv.statLocal, UEv.statRemote, UEv.openLocal,
          UEv.seekLocal 0, UEv.openRemoteTrunc, UEv.copyToRemote],
         RemoteFile.file lc, lc.length, none⟩

/-- UploadFileWithProgress (lines 594-670): same resume logic as UploadFile
but the local file is opened before the remote stat, the remote file is
created with sftp Create (which also truncates), and the copy is a 32 KiB
chunk loop.  The content effect is the same as for UploadFile. -/
def UploadFileWithProgress (clientNil ensureOk : Bool) (localF : LocalStat)
    (remote : RemoteFile) : UpOut :=
  if clientNil then ⟨[], remote, 0, some UpErr.nilClient⟩
  else if !ensureOk then ⟨[UEv.ensureConn], remote, 0, some UpErr.reconnectFailed⟩
  else
    match localF with
    | LocalStat.notFound =>
      ⟨[UEv.ensureConn, UEv.statLocal], remote, 0, some UpErr.localStatFailed⟩
    | LocalStat.statErr =>
      ⟨[UEv.ensureConn, UEv.statLocal], remote, 0, some UpErr.localStatFailed⟩
    | LocalStat.file lc =>
      match remote with
      | RemoteFile.permDenied =>
        ⟨[UEv.ensureConn, UEv.statLocal, UEv.openLocal, UEv.statRemote], remote, 0,
         some UpErr.remoteStatFailed⟩
      | RemoteFile.statErr =>
        ⟨[UEv.ensureConn, UEv.statLocal, UEv.openLocal, UEv.statRemote], remote, 0,
         some UpErr.remoteStatFailed⟩
      | RemoteFile.file rc =>
        ⟨[UEv.ensureConn, UEv.statLocal, UEv.openLocal, UEv.statRemote,
          UEv.seekLocal rc.length, UEv.createRemote, UEv.chunkCopy],
         RemoteFile.file (lc.drop rc.length), (lc.drop rc.length).length, none⟩
      | RemoteFile.notFound =>
        ⟨[UEv.ensureConn, UEv.statLocal, UEv.openLocal, UEv.statRemote,
          UEv.seekLocal 0, UEv.createRemote, UEv.chunkCopy],
         RemoteFile.file lc, lc.length, none⟩

/-! ## Transfer engine: DownloadFile (lines 160-242) -/

/-- Events emitted by the download paths. -/
inductive DEv
  | ensureRetries (n : Nat)
  | statRemote
  | statLocal
  | openRemote
  | seekRemote (off : Nat)
  | openLocalAppend
  | createLocal
  | copyAttempt (i : Nat)
  | sleep5
  | chunkCopy
  deriving DecidableEq, Repr

/-- Errors the download paths can return. -/
inductive DErr
  | nilClient
  | reconnectFailed
  | remoteStatFailed
  | localStatFailed
  | copyFatal
  deriving DecidableEq, Repr

/-- Result of a download: event trace, local file after the call, and the
returned error if any. -/
structure DlOut where
  events : List DEv
  localAfter : LocalStat
  err : Option DErr
  deriving DecidableEq, Repr

/-- True exactly on remote-seek events. -/
def isSeekEv : DEv → Bool
  | DEv.seekRemote _ => true
  | _ => false

/-- True exactly on readDir-style listing events is not needed here; this one
recognises copy attempts. -/
def isCopyEv : DEv → Bool
  | DEv.copyAttempt _ => true
  | _ => false

/-- Retry loop of DownloadFile (lines 222-238).  The oracle copyRes gives the
outcome of the io.Copy at a given attempt index: none means the copy finishes
the remaining bytes, some k means it fails after writing k further bytes.
ensOk gives the outcome of the in-loop ensureConnectedWithRetries(3) call.
rc is the remote content, lc the local content so far, off the current remote
offset.  The loop never seeks: a retried copy continues from the offsets the
failed copy left behind.  On the third failed attempt the fatal error of
line 233 is returned. -/
def dlCopyLoop (copyRes : Nat → Option Nat) (ensOk : Nat → Bool) (rc : List Nat) :
    Nat → Nat → List Nat → Nat → List DEv × List Nat × Option DErr
  | _, 0, lc, _ => ([], lc, none)
  | tries, fuel + 1, lc, off =>
    match copyRes tries with
    | none => ([DEv.copyAttempt tries], lc ++ rc.drop off, none)
    | some k =>
      let k2 := min k (rc.length - off)
      let lc2 := lc ++ (rc.drop off).take k2
      let off2 := off + k2
      if tries < 2 then
        if ensOk tries then
          let r := dlCopyLoop copyRes ensOk rc (tries + 1) fuel lc2 off2
          (DEv.copyAttempt tries :: DEv.sleep5 :: DEv.ensureRetries 3 :: r.1, r.2)
        else
          ([DEv.copyAttempt tries, DEv.sleep5, DEv.ensureRetries 3], lc2,
           some DErr.reconnectFailed)
      else ([DEv.copyAttempt tries], lc2, some DErr.copyFatal)

/-- Setup and copy part of DownloadFile once the stats decided a transfer is
needed (lines 196-238): open remote, seek remote to the local size, open the
local file for append when it has bytes or create it otherwise, then run the
retry loop with the remote offset at the local size. -/
def dlBody (copyRes : Nat → Option Nat) (ensOk : Nat → Bool) (rc lc : List Nat) : DlOut :=
  let setup := [DEv.ensureRetries 3, DEv.statRemote, DEv.statLocal, DEv.openRemote,
                DEv.seekRemote lc.length,
                if lc.length > 0 then DEv.openLocalAppend else DEv.createLocal]
  let r := dlCopyLoop copyRes ensOk rc 0 3 lc lc.length
  ⟨setup ++ r.1, LocalStat.file r.2.1, r.2.2⟩

/-- DownloadFile (lines 160-242): nil guard, ensureConnectedWithRetries(3),
stat remote (permission denied is silently skipped at lines 175-178, any
other stat error is fatal), stat local (equal sizes return success at once,
lines 186-191), then the resume body and retry loop. -/
def DownloadFile (clientNil ensureOk : Bool) (copyRes : Nat → Option Nat)
    (ensOk : Nat → Bool) (remote : RemoteFile) (localF : LocalStat) : DlOut :=
  if clientNil then ⟨[], localF, some DErr.nilClient⟩
  else if !ensureOk then ⟨[DEv.ensureRetries 3], localF, some DErr.reconnectFailed⟩
  else
    match remote with
    | RemoteFile.permDenied => ⟨[DEv.ensureRetries 3, DEv.statRemote], localF, none⟩
    | RemoteFile.notFound =>
      ⟨[DEv.ensureRetries 3, DEv.statRemote], localF, some DErr.remoteStatFailed⟩
    | RemoteFile.statErr =>
      ⟨[DEv.ensureRetries 3, DEv.statRemote], localF, some DErr.remoteStatFailed⟩
    | RemoteFile.file rc =>
      match localF with
      | LocalStat.statErr =>
        ⟨[DEv.ensureRetries 3, DEv.statRemote, DEv.statLocal], localF,
         some DErr.localStatFailed⟩
      | LocalStat.file lc =>
        if lc.length = rc.length then
          ⟨[DEv.ensureRetries 3, DEv.statRemote, DEv.statLocal], localF, none⟩
        else dlBody copyRes ensOk rc lc
      | LocalStat.notFound => dlBody copyRes ensOk rc []

/-- DownloadFileWithProgress (lines 672-760): same stat and resume logic as
DownloadFile but the copy is a single 32 KiB chunk loop with no outer retry
loop. -/
def DownloadFileWithProgress (clientNil ensureOk : Bool) (remote : RemoteFile)
    (localF : LocalStat) : DlOut :=
  if clientNil then ⟨[], localF, some DErr.nilClient⟩
  else if !ensureOk then ⟨[DEv.ensureRetries 3], localF, some DErr.reconnectFailed⟩
  else
    match remote with
    | RemoteFile.permDenied => ⟨[DEv.ensureRetries 3, DEv.statRemote], localF, none⟩
    | RemoteFile.notFound =>
      ⟨[DEv.ensureRetries 3, DEv.statRemote], localF, some DErr.remoteStatFailed⟩
    | RemoteFile.statErr =>
      ⟨[DEv.ensureRetries 3, DEv.statRemote], localF, some DErr.remoteStatFailed⟩
    | RemoteFile.file rc =>
      match localF with
      | LocalStat.statErr =>
        ⟨[DEv.ensureRetries 3, DEv.statRemote, DEv.statLocal], localF,
         some DErr.localStatFailed⟩
      | LocalStat.file lc =>
        if lc.length = rc.length then
          ⟨[DEv.ensureRetries 3, DEv.statRemote, DEv.statLocal], localF, none⟩
        else
          ⟨[DEv.ensureRetries 3, DEv.statRemote, DEv.statLocal, DEv.openRemote,
            DEv.seekRemote lc.length,
            if lc.length > 0 then DEv.openLocalAppend else DEv.createLocal,
            DEv.chunkCopy],
           LocalStat.file (lc ++ rc.drop lc.length), none⟩
      | LocalStat.notFound =>
        ⟨[DEv.ensureRetries 3, DEv.statRemote, DEv.statLocal, DEv.openRemote,
          DEv.seekRemote 0, DEv.createLocal, DEv.chunkCopy],
         LocalStat.file rc, none⟩

/-- Outcome of running a method on a possibly nil receiver: Go panics on a
field access through a nil pointer, otherwise the body runs. -/
inductive NilDeref (α : Type)
  | panicked
  | ran (a : α)
  deriving DecidableEq, Repr

/-- ReConnect including the (absent) nil-receiver guard: unlike the exported
transfer and filesystem operations, ReConnect has no nil check, so its first
field access (client.sftpClient, line 352) panics on a nil receiver. -/
def ReConnectTop (clientNil : Bool) (s : SessState) (authOk : Bool)
    (dialRes sftpRes : Option Nat) : NilDeref RcOut :=
  if clientNil then NilDeref.panicked
  else NilDeref.ran (ReConnect s authOk dialRes sftpRes)

/-! ## Remote filesystem operations (lines 244-345, 429-458, 762-773) -/

/-- Error message of every nil-receiver guard in the source. -/
def nilMsg : String := "SFTPClient is nil"

/-- RemoveFile (lines 244-254).  Events are the remote paths touched. -/
def RemoveFile (clientNil removeOk : Bool) (p : String) : List String × Option String :=
  if clientNil then ([], some nilMsg)
  else ([p], if removeOk then none else some "failed to remove remote file")

/-- MoveFile (lines 256-265). -/
def MoveFile (clientNil renameOk : Bool) (oldPath newPath : String) :
    List String × Option String :=
  if clientNil then ([], some nilMsg)
  else ([oldPath, newPath], if renameOk then none else some "failed to move remote file")

/-- List (lines 267-276); named ListOp because List is the Lean list type. -/
def ListOp (clientNil : Bool) (res : Option (List FInfo)) (p : String) :
    List String × Except String (List FInfo) :=
  if clientNil then ([], Except.error nilMsg)
  else
    match res with
    | some fs => ([p], Except.ok fs)
    | none => ([p], Except.error "failed to list directory")

/-- MakeDir (lines 278-287). -/
def MakeDir (clientNil mkOk : Bool) (p : String) : List String × Option String :=
  if clientNil then ([], some nilMsg)
  else ([p], if mkOk then none else some "failed to create directory")

/-- RemoveDir (lines 289-298). -/
def RemoveDir (clientNil rmOk : Bool) (p : String) : List String × Option String :=
  if clientNil then ([], some nilMsg)
  else ([p], if rmOk then none else some "failed to remove directory")

/-- MoveDir (lines 300-309). -/
def MoveDir (clientNil renameOk : Bool) (oldPath newPath : String) :
    List String × Option String :=
  if clientNil then ([], some nilMsg)
  else ([oldPath, newPath], if renameOk then none else some "failed to move directory")

/-- ListDirs (lines 311-327): directory entries only. -/
def ListDirs (clientNil : Bool) (res : Option (List FInfo)) (p : String) :
    List String × Except String (List FInfo) :=
  if clientNil then ([], Except.error nilMsg)
  else
    match res with
    | some fs => ([p], Except.ok (fs.filter (·.isDir)))
    | none => ([p], Except.error "failed to list directory")

/-- ListFiles (lines 329-345): non-directory entries only. -/
def ListFiles (clientNil : Bool) (res : Option (List FInfo)) (p : String) :
    List String × Except String (List FInfo) :=
  if clientNil then ([], Except.error nilMsg)
  else
    match res with
    | some fs => ([p], Except.ok (fs.filter (fun f => !f.isDir)))
    | none => ([p], Except.error "failed to list directory")

/-- ListFilesAndFolders (lines 449-458). -/
def ListFilesAndFolders (clientNil : Bool) (res : Option (List FInfo)) (p : String) :
    List String × Except String (List FInfo) :=
  if clientNil then ([], Except.error nilMsg)
  else
    match res with
    | some fs => ([p], Except.ok fs)
    | none => ([p], Except.error "failed to list directory")

/-- FolderExists (lines 429-436): false on a nil receiver, otherwise true
exactly when the remote stat succeeds. -/
def FolderExists (clientNil statOk : Bool) (p : String) : List String × Bool :=
  if clientNil then ([], false) else ([p], statOk)

/-- FileExists (lines 438-447): same collapse of every stat error to false. -/
def FileExists (clientNil statOk : Bool) (p : String) : List String × Bool :=
  if clientNil then ([], false) else ([p], statOk)

/-- FileInfo (lines 762-773). -/
def FileInfo (clientNil : Bool) (statRes : Option FInfo) (p : String) :
    List String × Except String FInfo :=
  if clientNil then ([], Except.error nilMsg)
  else
    match statRes with
    | some fi => ([p], Except.ok fi)
    | none => ([p], Except.error "failed to get file info")

/-! ## CreateRemoteDirRecursive (lines 547-592) -/

/-- Events of CreateRemoteDirRecursive: a FolderExists check or a MakeDir
call, in the order the code issues them. -/
inductive MdEvent
  | checkExists (p : String)
  | mkdir (p : String)
  deriving DecidableEq, Repr

/-- Error of CreateRemoteDirRecursive: the wrap of line 584, carrying the
path and the inner MakeDir error text. -/
inductive MdErr
  | createFailed (p : String) (inner : String)
  deriving DecidableEq, Repr

/-- Loop of CreateRemoteDirRecursive (lines 567-590): walk the components,
skip empty ones, accumulate the current path (filepath.Join of two
slash-free components is their slash concatenation), check existence through
FolderExists and create through MakeDir when missing, stopping with the
wrapped error when MakeDir fails. -/
def crdrGo (clientNil : Bool) (fex mkOk : String → Bool) :
    List String → String → List MdEvent × Option MdErr
  | [], _ => ([], none)
  | d :: rest, cur =>
    if d = "" then crdrGo clientNil fex mkOk rest cur
    else
      let cp := if cur = "" then d else cur ++ "/" ++ d
      if (FolderExists clientNil (fex cp) cp).2 then
        let r := crdrGo clientNil fex mkOk rest cp
        (MdEvent.checkExists cp :: r.1, r.2)
      else
        match (MakeDir clientNil (mkOk cp) cp).2 with
        | some e => ([MdEvent.checkExists cp, MdEvent.mkdir cp], some (MdErr.createFailed cp e))
        | none =>
          let r := crdrGo clientNil fex mkOk rest cp
          (MdEvent.checkExists cp :: MdEvent.mkdir cp :: r.1, r.2)

/-- Split on a separator character, exactly as strings.Split does for a
one-character separator: the empty string yields one empty component, and a
separator at either end yields an empty component there. -/
def splitCharsGo (sep : Char) : List Char → List Char → List String
  | [], acc => [String.mk acc]
  | c :: cs, acc =>
    if c = sep then String.mk acc :: splitCharsGo sep cs []
    else splitCharsGo sep cs (acc ++ [c])

/-- strings.Split(path, string(filepath.Separator)) of line 563; the
separator is the slash on the target platform. -/
def splitPath (s : String) : List String := splitCharsGo '/' s.data []

/-- CreateRemoteDirRecursive (lines 547-592): split the path on the
separator and run the component loop.  Note there is no nil-receiver guard;
on a nil client, FolderExists answers false and MakeDir answers the nil
error, so the first component already fails with the wrapped error. -/
def CreateRemoteDirRecursive (clientNil : Bool) (fex mkOk : String → Bool)
    (remoteBasePath : String) : List MdEvent × Option MdErr :=
  crdrGo clientNil fex mkOk (splitPath remoteBasePath) ""

/-! ## Recursive walker: WalkFile (lines 460-514) -/

/-- Result of one ReadDir call seen by the walker. -/
inductive ListResult
  | ok (entries : List FInfo)
  | permDenied
  | notFound
  | otherErr
  deriving DecidableEq, Repr

/-- Events of a walk: ReadDir calls and visitor invocations, in order. -/
inductive WEvent
  | readDir (p : String)
  | visit (p : String)
  deriving DecidableEq, Repr

/-- Errors a walk can return. -/
inductive WalkErr
  | nilClient
  | visitorErr (v : Nat)
  | listFailed (p : String)
  | listFailedAfterRetry (p : String)
  | outOfFuel
  deriving DecidableEq, Repr

/-- True exactly on ReadDir events. -/
def isReadDirEv : WEvent → Bool
  | WEvent.readDir _ => true
  | _ => false

/-- Path normalization of lines 466-469: strip one leading slash when the
path is longer than one character and starts with a slash (the Go test is
len(remotePath) > 1 and remotePath[0] == the slash). -/
def normalizeWalkPath (remotePath : String) : String :=
  match remotePath.data with
  | c :: rest => if c = '/' ∧ rest ≠ [] then String.mk rest else remotePath
  | [] => remotePath

/-- Pending work of the walker: either a WalkFile call on a path, or the
entry loop of lines 497-511 over the remaining entries of a directory whose
normalized path is given. -/
inductive WalkCall
  | goDir (remotePath : String)
  | goList (np : String) (es : List FInfo)
  deriving DecidableEq, Repr

/-- WalkFile body (lines 460-514) as a fuel-indexed recursion.  fs is the
remote ReadDir oracle, indexed by how many ReadDir calls happened before (so
a retried listing can answer differently), wfn the visitor (some v = the
visitor returns error v).  The result is the event trace, the updated
ReadDir call count, and the returned error if any.  A goDir step normalizes
the path, lists it, silently skips on permission-denied or not-found, and on
any other listing error retries once with the normalized path only when
normalization changed the path, aborting otherwise; a goList step visits the
entry with the joined path, recurses into directories depth-first, and
aborts on a visitor error. -/
def walkRun (fs : Nat → String → ListResult) (wfn : String → FInfo → Option Nat) :
    Nat → Nat → WalkCall → List WEvent × Nat × Option WalkErr
  | 0, cnt, _ => ([], cnt, some WalkErr.outOfFuel)
  | fuel + 1, cnt, WalkCall.goDir remotePath =>
    let np := normalizeWalkPath remotePath
    match fs cnt np with
    | ListResult.permDenied => ([WEvent.readDir np], cnt + 1, none)
    | ListResult.notFound => ([WEvent.readDir np], cnt + 1, none)
    | ListResult.otherErr =>
      if np ≠ remotePath then
        match fs (cnt + 1) np with
        | ListResult.ok entries =>
          let r := walkRun fs wfn fuel (cnt + 2) (WalkCall.goList np entries)
          (WEvent.readDir np :: WEvent.readDir np :: r.1, r.2)
        | _ =>
          ([WEvent.readDir np, WEvent.readDir np], cnt + 2,
           some (WalkErr.listFailedAfterRetry np))
      else ([WEvent.readDir np], cnt + 1, some (WalkErr.listFailed np))
    | ListResult.ok entries =>
      let r := walkRun fs wfn fuel (cnt + 1) (WalkCall.goList np entries)
      (WEvent.readDir np :: r.1, r.2)
  | _ + 1, cnt, WalkCall.goList _ [] => ([], cnt, none)
  | fuel + 1, cnt, WalkCall.goList np (e :: rest) =>
    let fullPath := np ++ "/" ++ e.name
    match wfn fullPath e with
    | some v => ([WEvent.visit fullPath], cnt, some (WalkErr.visitorErr v))
    | none =>
      if e.isDir then
        match walkRun fs wfn fuel cnt (WalkCall.goDir fullPath) with
        | (evs, c, some err) => (WEvent.visit fullPath :: evs, c, some err)
        | (evs, c, none) =>
          let r := walkRun fs wfn fuel c (WalkCall.goList np rest)
          (WEvent.visit fullPath :: evs ++ r.1, r.2)
      else
        let r := walkRun fs wfn fuel cnt (WalkCall.goList np rest)
        (WEvent.visit fullPath :: r.1, r.2)

/-- WalkFile (lines 460-514) with its nil-receiver guard (lines 461-463). -/
def WalkFile (clientNil : Bool) (fs : Nat → String → ListResult)
    (wfn : String → FInfo → Option Nat) (fuel : Nat) (remotePath : String) :
    List WEvent × Nat × Option WalkErr :=
  if clientNil then ([], 0, some WalkErr.nilClient)
  else walkRun fs wfn fuel 0 (WalkCall.goDir remotePath)

/-- Remote tree of the walker scenario: root contains the file f1 and the
directory sub, which contains the file f2. -/
def walkTreeFs : Nat → String → ListResult := fun _ p =>
  if p = "root" then ListResult.ok [⟨"f1", false⟩, ⟨"sub", true⟩]
  else if p = "root/sub" then ListResult.ok [⟨"f2", false⟩]
  else ListResult.notFound

/-! ## Helper lemmas -/

/-- If every attempt in the window fails, the retry loop runs the whole
window and returns the synthetic exhausted error. -/
lemma ecwrGo_all_fail (errs : Nat → Option Nat) (total : Nat) :
    ∀ fuel i, (∀ j, j < fuel → (errs (i + j)).isSome = true) →
      ecwrGo errs total i fuel = (ecTraceFrom i fuel, some (ECErr.exhausted total)) := by
  intro fuel
  induction fuel with
  | zero => intro i _; rfl
  | succ f ih =>
    intro i h
    have h0 : (errs i).isSome = true := by simpa using h 0 (Nat.succ_pos _)
    obtain ⟨e, he⟩ := Option.isSome_iff_exists.mp h0
    have ihs := ih (i + 1) (fun j hj => by
      have hmem := h (j + 1) (by omega)
      have heq : i + (j + 1) = i + 1 + j := by omega
      rwa [heq] at hmem)
    simp [ecwrGo, he, ihs, ecTraceFrom]

/-- If the first success happens at index i + k inside the window, the retry
loop stops right there with no error. -/
lemma ecwrGo_success (errs : Nat → Option Nat) (total : Nat) :
    ∀ fuel i k, k < fuel → errs (i + k) = none →
      (∀ j, j < k → (errs (i + j)).isSome = true) →
      ecwrGo errs total i fuel = (ecTraceFrom i k ++ [ECEvent.attempt (i + k)], none) := by
  intro fuel
  induction fuel with
  | zero => intro i k hk; exact absurd hk (Nat.not_lt_zero k)
  | succ f ih =>
    intro i k hk hnone hfail
    cases k with
    | zero =>
      have he : errs i = none := by simpa using hnone
      simp [ecwrGo, he, ecTraceFrom]
    | succ k2 =>
      have h0 : (errs i).isSome = true := by simpa using hfail 0 (Nat.succ_pos _)
      obtain ⟨e, he⟩ := Option.isSome_iff_exists.mp h0
      have hshift : i + (k2 + 1) = i + 1 + k2 := by omega
      have ihs := ih (i + 1) k2 (by omega) (by rwa [hshift] at hnone)
        (fun j hj => by
          have hmem := hfail (j + 1) (by omega)
          have heq : i + (j + 1) = i + 1 + j := by omega
          rwa [heq] at hmem)
      simp [ecwrGo, he, ihs, ecTraceFrom, hshift]

/-- The download retry loop never emits a seek event: no attempt re-seeks. -/
lemma dlCopyLoop_no_seek (cr : Nat → Option Nat) (eo : Nat → Bool) (rc : List Nat) :
    ∀ fuel tries lc off,
      ((dlCopyLoop cr eo rc tries fuel lc off).1.countP fun e => isSeekEv e) = 0 := by
  intro fuel
  induction fuel with
  | zero => intro tries lc off; rfl
  | succ f ih =>
    intro tries lc off
    simp only [dlCopyLoop]
    cases h : cr tries with
    | none => simp [isSeekEv]
    | some k =>
      by_cases h2 : tries < 2
      · cases h3 : eo tries
        · simp [h2, h3, isSeekEv]
        · have hrec := ih (tries + 1) (lc ++ (rc.drop off).take (min k (rc.length - off)))
            (off + min k (rc.length - off))
          simpa [List.countP_cons, isSeekEv, h2, h3] using hrec
      · simp [h2, isSeekEv]

/-! ## Claim theorems -/

/-- Claim C1 (code bug witness): at local content [10, 20, 30] (size 3) and
remote content [10, 20] (size 2), UploadFile stats the remote file, seeks the
local file to offset 2, opens the remote file truncating it, and writes
exactly 3 - 2 = 1 byte; but because the truncating open left the write offset
at 0, the remote file ends with content [30] of size 1, not size 3 as the
claim states. -/
theorem uploadFile_truncates_resume_suffix :
    UploadFile false true (LocalStat.file [10, 20, 30]) (RemoteFile.file [10, 20]) =
      ⟨[UEv.ensureConn, UEv.statLocal, UEv.statRemote, UEv.openLocal, UEv.seekLocal 2,
        UEv.openRemoteTrunc, UEv.copyToRemote],
       RemoteFile.file [30], 1, none⟩ ∧
    (UploadFile false true (LocalStat.file [10, 20, 30])
        (RemoteFile.file [10, 20])).written = 3 - 2 ∧
    remoteSizeOf (UploadFile false true (LocalStat.file [10, 20, 30])
        (RemoteFile.file [10, 20])).remoteAfter ≠ 3 := by
  refine ⟨rfl, rfl, ?_⟩
  decide

/-- Claim C2 counterexample: with both handles set and a failing dial,
ReConnect returns an error yet leaves both handle fields non-nil (they hold
the old, now closed, handles), so the session is not left in the both-nil
state the claim requires on failure. -/
theorem reConnect_nil_fields_cex :
    (ReConnect ⟨some ⟨0, true⟩, some ⟨1, true⟩⟩ true none none).err = some RcErr.dialFailed ∧
    (ReConnect ⟨some ⟨0, true⟩, some ⟨1, true⟩⟩ true none none).state.sshClient ≠ none ∧
    (ReConnect ⟨some ⟨0, true⟩, some ⟨1, true⟩⟩ true none none).state.sftpClient ≠ none := by
  refine ⟨rfl, ?_, ?_⟩ <;> decide

/-- Claim C2 (amended): ReConnect preserves the not-exactly-one-non-nil
invariant; on failure it leaves the handle fields holding their previous
values closed in place (never resetting them to nil), every handle still
referenced is closed, and when sftp creation fails the freshly dialed ssh
handle is closed as well. -/
theorem reConnect_invariant_preserved (s : SessState) (authOk : Bool)
    (dialRes sftpRes : Option Nat) :
    (exactlyOneNonNil s = false →
      exactlyOneNonNil (ReConnect s authOk dialRes sftpRes).state = false) ∧
    ((ReConnect s authOk dialRes sftpRes).err.isSome = true →
      (ReConnect s authOk dialRes sftpRes).state =
        ⟨s.sshClient.map closeHandle, s.sftpClient.map closeHandle⟩) ∧
    ((ReConnect s authOk dialRes sftpRes).err.isSome = true →
      ∀ h : Handle,
        ((ReConnect s authOk dialRes sftpRes).state.sshClient = some h ∨
         (ReConnect s authOk dialRes sftpRes).state.sftpClient = some h) →
        h.isOpen = false) ∧
    ((ReConnect s authOk dialRes sftpRes).err = some RcErr.sftpFailed →
      RcEv.closeNewSsh ∈ (ReConnect s authOk dialRes sftpRes).events) := by
  obtain ⟨so, fo⟩ := s
  cases authOk <;> cases dialRes <;> cases sftpRes <;> cases so <;> cases fo <;>
    simp [ReConnect, exactlyOneNonNil, closeHandle] <;>
    (intro h hmem; rcases hmem with h1 | h1 <;> (subst h1; rfl))

/-- Claim C2 witness: applying the amended theorem at a concrete failing
dial shows the fields keep their old handles, closed in place. -/
theorem reConnect_invariant_preserved_witness :
    (ReConnect ⟨some ⟨0, true⟩, some ⟨1, true⟩⟩ true none none).state =
      ⟨some ⟨0, false⟩, some ⟨1, false⟩⟩ :=
  (reConnect_invariant_preserved ⟨some ⟨0, true⟩, some ⟨1, true⟩⟩ true none none).2.1 rfl

/-- Claim C3 counterexample: with the copy failing once after 2 of 4 bytes
and then succeeding, DownloadFile sleeps, re-runs
ensureConnectedWithRetries(3) and retries the copy, but its trace contains
exactly one seek event (the initial one): no re-seek happens before the
retried copy, contrary to the claim. -/
theorem downloadFile_retry_without_reseek_cex :
    DownloadFile false true (fun i => if i = 0 then some 2 else none) (fun _ => true)
        (RemoteFile.file [1, 2, 3, 4]) LocalStat.notFound =
      ⟨[DEv.ensureRetries 3, DEv.statRemote, DEv.statLocal, DEv.openRemote, DEv.seekRemote 0,
        DEv.createLocal, DEv.copyAttempt 0, DEv.sleep5, DEv.ensureRetries 3,
        DEv.copyAttempt 1],
       LocalStat.file [1, 2, 3, 4], none⟩ ∧
    ((DownloadFile false true (fun i => if i = 0 then some 2 else none) (fun _ => true)
        (RemoteFile.file [1, 2, 3, 4]) LocalStat.notFound).events.countP
      fun e => isSeekEv e) = 1 := by
  constructor <;> decide

/-- Claim C3 (amended): the copy sits in a 3-attempt retry loop; a
successful copy exits at once without re-copying; a failed copy that is not
the last attempt sleeps 5 seconds and runs ensureConnectedWithRetries(3),
aborting with a reconnect error when that fails, then retries the remaining
copy from the current offsets with no re-seek; the third failed attempt
returns the fatal copy error; and no attempt of the loop ever seeks. -/
theorem downloadFile_retry_loop_spec (cr : Nat → Option Nat) (eo : Nat → Bool)
    (rc lc : List Nat) (off : Nat) :
    (cr 0 = none →
      dlCopyLoop cr eo rc 0 3 lc off = ([DEv.copyAttempt 0], lc ++ rc.drop off, none)) ∧
    (cr 0 = none →
      DownloadFile false true cr eo (RemoteFile.file rc) LocalStat.notFound =
        ⟨[DEv.ensureRetries 3, DEv.statRemote, DEv.statLocal, DEv.openRemote,
          DEv.seekRemote 0, DEv.createLocal, DEv.copyAttempt 0], LocalStat.file rc, none⟩) ∧
    (∀ k0 k1 k2, cr 0 = some k0 → cr 1 = some k1 → cr 2 = some k2 →
      eo 0 = true → eo 1 = true →
      (dlCopyLoop cr eo rc 0 3 lc off).1 =
        [DEv.copyAttempt 0, DEv.sleep5, DEv.ensureRetries 3,
         DEv.copyAttempt 1, DEv.sleep5, DEv.ensureRetries 3, DEv.copyAttempt 2] ∧
      (dlCopyLoop cr eo rc 0 3 lc off).2.2 = some DErr.copyFatal) ∧
    (∀ k0, cr 0 = some k0 → eo 0 = false →
      dlCopyLoop cr eo rc 0 3 lc off =
        ([DEv.copyAttempt 0, DEv.sleep5, DEv.ensureRetries 3],
         lc ++ (rc.drop off).take (min k0 (rc.length - off)), some DErr.reconnectFailed)) ∧
    ((dlCopyLoop cr eo rc 0 3 lc off).1.countP fun e => isSeekEv e) = 0 := by
  refine ⟨?_, ?_, ?_, ?_, dlCopyLoop_no_seek cr eo rc 3 0 lc off⟩
  · intro h
    simp [dlCopyLoop, h]
  · intro h
    simp [DownloadFile, dlBody, dlCopyLoop, h]
  · intro k0 k1 k2 h0 h1 h2 he0 he1
    constructor <;> simp [dlCopyLoop, h0, h1, h2, he0, he1]
  · intro k0 h0 he0
    simp [dlCopyLoop, h0, he0]

/-- Claim C3 witness: a copy that succeeds at the first attempt exits the
loop after a single copy event. -/
theorem downloadFile_retry_loop_spec_witness :
    dlCopyLoop (fun _ => none) (fun _ => true) [9] 0 3 [] 0 =
      ([DEv.copyAttempt 0], [9], none) :=
  (downloadFile_retry_loop_spec (fun _ => none) (fun _ => true) [9] [] 0).1 rfl

/-- Claim C4 counterexample: with a single attempt that fails with underlying
error 7, ensureConnectedWithRetries returns the synthetic exhausted error of
line 525, not the last error produced by ensureConnected. -/
theorem retries_synthetic_error_cex :
    ensureConnectedWithRetries (fun _ => some 7) 1 =
      ([ECEvent.attempt 0, ECEvent.sleep2], some (ECErr.exhausted 1)) ∧
    (ensureConnectedWithRetries (fun _ => some 7) 1).2 ≠ some (ECErr.underlying 7) := by
  constructor
  · rfl
  · decide

/-- Claim C4 (amended): ensureConnectedWithRetries calls ensureConnected up
to n times, sleeping the fixed 2 seconds after every failed attempt
(including the last); it returns success as soon as an attempt succeeds, and
if all n attempts fail it returns the fresh failed-to-reconnect-after-n
error, which does not carry the last underlying error. -/
theorem ensureConnectedWithRetries_spec (errs : Nat → Option Nat) (n : Nat) :
    ((∀ i, i < n → (errs i).isSome = true) →
      ensureConnectedWithRetries errs n = (ecTraceFrom 0 n, some (ECErr.exhausted n))) ∧
    (∀ k, k < n → errs k = none → (∀ i, i < k → (errs i).isSome = true) →
      ensureConnectedWithRetries errs n = (ecTraceFrom 0 k ++ [ECEvent.attempt k], none)) := by
  constructor
  · intro h
    exact ecwrGo_all_fail errs n n 0 (fun j hj => by simpa using h j hj)
  · intro k hk hnone hfail
    have hs := ecwrGo_success errs n n 0 k hk (by simpa using hnone)
      (fun j hj => by simpa using hfail j hj)
    simpa using hs

/-- Claim C4 witness: two failing attempts exhaust a budget of 2 and return
the synthetic error. -/
theorem ensureConnectedWithRetries_spec_witness :
    ensureConnectedWithRetries (fun _ => some 5) 2 =
      (ecTraceFrom 0 2, some (ECErr.exhausted 2)) :=
  (ensureConnectedWithRetries_spec (fun _ => some 5) 2).1 (fun _ _ => rfl)

/-- Claim C5 counterexample: on the path "root" (no leading slash, so
normalization does not change it) a listing error that is neither
permission-denied nor not-found aborts the walk at once with a single
ReadDir call: no retry of the listing happens, contrary to the claim that
every such error triggers exactly one retry. -/
theorem walkFile_no_retry_unchanged_path_cex :
    WalkFile false (fun _ _ => ListResult.otherErr) (fun _ _ => none) 5 "root" =
      ([WEvent.readDir "root"], 1, some (WalkErr.listFailed "root")) ∧
    ((WalkFile false (fun _ _ => ListResult.otherErr) (fun _ _ => none) 5 "root").1.countP
      fun e => isReadDirEv e) ≠ 2 := by
  constructor <;> decide

/-- Claim C5 (amended): when the listing of the normalized path fails with
permission-denied or not-found, WalkFile returns success without visiting
anything; any other listing error is retried exactly once with the
normalized path only when normalization changed the path (a leading slash
was stripped), aborting with an error when the retry also fails and
continuing with the retried listing when it succeeds; when the path was not
rewritten, the walk aborts immediately with an error and no retry. -/
theorem walkFile_listing_failure_spec (fs : Nat → String → ListResult)
    (wfn : String → FInfo → Option Nat) (fuel cnt : Nat) (p : String) :
    (fs cnt (normalizeWalkPath p) = ListResult.permDenied →
      walkRun fs wfn (fuel + 1) cnt (WalkCall.goDir p) =
        ([WEvent.readDir (normalizeWalkPath p)], cnt + 1, none)) ∧
    (fs cnt (normalizeWalkPath p) = ListResult.notFound →
      walkRun fs wfn (fuel + 1) cnt (WalkCall.goDir p) =
        ([WEvent.readDir (normalizeWalkPath p)], cnt + 1, none)) ∧
    (fs cnt (normalizeWalkPath p) = ListResult.otherErr → normalizeWalkPath p = p →
      walkRun fs wfn (fuel + 1) cnt (WalkCall.goDir p) =
        ([WEvent.readDir p], cnt + 1, some (WalkErr.listFailed p))) ∧
    (fs cnt (normalizeWalkPath p) = ListResult.otherErr → normalizeWalkPath p ≠ p →
      (∀ es, fs (cnt + 1) (normalizeWalkPath p) ≠ ListResult.ok es) →
      walkRun fs wfn (fuel + 1) cnt (WalkCall.goDir p) =
        ([WEvent.readDir (normalizeWalkPath p), WEvent.readDir (normalizeWalkPath p)],
         cnt + 2, some (WalkErr.listFailedAfterRetry (normalizeWalkPath p)))) ∧
    (fs cnt (normalizeWalkPath p) = ListResult.otherErr → normalizeWalkPath p ≠ p →
      ∀ es, fs (cnt + 1) (normalizeWalkPath p) = ListResult.ok es →
      walkRun fs wfn (fuel + 1) cnt (WalkCall.goDir p) =
        (WEvent.readDir (normalizeWalkPath p) :: WEvent.readDir (normalizeWalkPath p) ::
           (walkRun fs wfn fuel (cnt + 2) (WalkCall.goList (normalizeWalkPath p) es)).1,
         (walkRun fs wfn fuel (cnt + 2) (WalkCall.goList (normalizeWalkPath p) es)).2)) := by
  refine ⟨?_, ?_, ?_, ?_, ?_⟩
  · intro h
    simp [walkRun, h]
  · intro h
    simp [walkRun, h]
  · intro h heq
    rw [heq] at h
    simp [walkRun, h, heq]
  · intro h hne hnok
    cases h2 : fs (cnt + 1) (normalizeWalkPath p) with
    | ok es => exact absurd h2 (hnok es)
    | permDenied => simp [walkRun, h, hne, h2]
    | notFound => simp [walkRun, h, hne, h2]
    | otherErr => simp [walkRun, h, hne, h2]
  · intro h hne es h2
    simp [walkRun, h, hne, h2]

/-- Claim C5 witness: a permission-denied listing is silently skipped. -/
theorem walkFile_listing_failure_spec_witness :
    walkRun (fun _ _ => ListResult.permDenied) (fun _ _ => none) 1 0 (WalkCall.goDir "/a") =
      ([WEvent.readDir "a"], 1, none) :=
  (walkFile_listing_failure_spec (fun _ _ => ListResult.permDenied) (fun _ _ => none)
    0 0 "/a").1 rfl

/-- Claim C6: when the local file exists with the same size as the remote
file, DownloadFile and DownloadFileWithProgress return success right after
the two stats, with no remote open and the local file untouched; and running
DownloadFile twice against an unchanged remote yields the same final local
content as running it once. -/
theorem downloadFile_equal_size_noop_idempotent :
    (∀ (cr : Nat → Option Nat) (eo : Nat → Bool) (rc lc : List Nat),
      lc.length = rc.length →
      DownloadFile false true cr eo (RemoteFile.file rc) (LocalStat.file lc) =
        ⟨[DEv.ensureRetries 3, DEv.statRemote, DEv.statLocal], LocalStat.file lc, none⟩) ∧
    (∀ rc lc : List Nat, lc.length = rc.length →
      DownloadFileWithProgress false true (RemoteFile.file rc) (LocalStat.file lc) =
        ⟨[DEv.ensureRetries 3, DEv.statRemote, DEv.statLocal], LocalStat.file lc, none⟩) ∧
    (∀ (remote : RemoteFile) (localF : LocalStat),
      (DownloadFile false true (fun _ => none) (fun _ => true) remote
          (DownloadFile false true (fun _ => none) (fun _ => true) remote
            localF).localAfter).localAfter =
        (DownloadFile false true (fun _ => none) (fun _ => true) remote localF).localAfter) := by
  refine ⟨?_, ?_, ?_⟩
  · intro cr eo rc lc h
    simp [DownloadFile, h]
  · intro rc lc h
    simp [DownloadFileWithProgress, h]
  · intro remote localF
    cases remote with
    | permDenied => simp [DownloadFile]
    | notFound => simp [DownloadFile]
    | statErr => simp [DownloadFile]
    | file rc =>
      cases localF with
      | statErr => simp [DownloadFile]
      | notFound => simp [DownloadFile, dlBody, dlCopyLoop]
      | file lc =>
        by_cases h : lc.length = rc.length
        · simp [DownloadFile, h]
        · by_cases hle : lc.length ≤ rc.length
          · have hlen : (lc ++ rc.drop lc.length).length = rc.length := by
              simp [List.length_append, List.length_drop]
              omega
            simp [DownloadFile, dlBody, dlCopyLoop, h, hlen]
          · have hdrop : rc.drop lc.length = [] := List.drop_eq_nil_of_le (by omega)
            simp [DownloadFile, dlBody, dlCopyLoop, h, hdrop]

/-- Claim C6 witness: equal one-byte files make DownloadFile a stat-only
no-op. -/
theorem downloadFile_equal_size_noop_idempotent_witness :
    DownloadFile false true (fun _ => none) (fun _ => true) (RemoteFile.file [1])
        (LocalStat.file [2]) =
      ⟨[DEv.ensureRetries 3, DEv.statRemote, DEv.statLocal], LocalStat.file [2], none⟩ :=
  downloadFile_equal_size_noop_idempotent.1 (fun _ => none) (fun _ => true) [1] [2] rfl

/-- Claim C7: a permission-denied stat makes DownloadFile return success with
no remote open, no local change and no copy; a not-found or any other stat
failure is returned as an error. -/
theorem downloadFile_permission_skip :
    (∀ (cr : Nat → Option Nat) (eo : Nat → Bool) (localF : LocalStat),
      DownloadFile false true cr eo RemoteFile.permDenied localF =
        ⟨[DEv.ensureRetries 3, DEv.statRemote], localF, none⟩) ∧
    (∀ (cr : Nat → Option Nat) (eo : Nat → Bool) (localF : LocalStat),
      DownloadFile false true cr eo RemoteFile.notFound localF =
        ⟨[DEv.ensureRetries 3, DEv.statRemote], localF, some DErr.remoteStatFailed⟩) ∧
    (∀ (cr : Nat → Option Nat) (eo : Nat → Bool) (localF : LocalStat),
      DownloadFile false true cr eo RemoteFile.statErr localF =
        ⟨[DEv.ensureRetries 3, DEv.statRemote], localF, some DErr.remoteStatFailed⟩) := by
  refine ⟨?_, ?_, ?_⟩ <;> intros <;> rfl

/-- Claim C8: CreateRemoteDirRecursive on "a/b/c" issues existence checks
for "a", then "a/b", then "a/b/c" in that order, creates a prefix only when
its check failed, performs no creation when all three prefixes exist, and
skips empty components so a leading separator changes nothing. -/
theorem createRemoteDirRecursive_prefix_order :
    (∀ fex : String → Bool,
      (CreateRemoteDirRecursive false fex (fun _ => true) "a/b/c").1 =
        (["a", "a/b", "a/b/c"].map fun q =>
          if fex q then [MdEvent.checkExists q]
          else [MdEvent.checkExists q, MdEvent.mkdir q]).flatten ∧
      (CreateRemoteDirRecursive false fex (fun _ => true) "a/b/c").2 = none) ∧
    (CreateRemoteDirRecursive false (fun _ => true) (fun _ => true) "a/b/c" =
      ([MdEvent.checkExists "a", MdEvent.checkExists "a/b", MdEvent.checkExists "a/b/c"],
       none)) ∧
    (∀ fex mkOk : String → Bool,
      CreateRemoteDirRecursive false fex mkOk "/a/b/c" =
        CreateRemoteDirRecursive false fex mkOk "a/b/c") := by
  refine ⟨?_, by decide, ?_⟩
  · intro fex
    cases hfa : fex "a" <;> cases hfb : fex "a/b" <;> cases hfc : fex "a/b/c" <;>
      constructor <;>
      simp [CreateRemoteDirRecursive, splitPath, splitCharsGo, crdrGo, FolderExists,
        MakeDir, hfa, hfb, hfc]
  · intro fex mkOk
    rfl

/-- Claim C9: the walker lists the normalized path first (one leading slash
stripped), and on the tree root containing f1 and sub, with f2 inside sub,
visits root/f1, then root/sub, then root/sub/f2 in depth-first order with
full joined paths; a visitor error aborts the walk before any remaining
sibling is visited. -/
theorem walkFile_depth_first_order :
    (∀ (fs : Nat → String → ListResult) (wfn : String → FInfo → Option Nat)
        (fuel cnt : Nat) (p : String),
      (walkRun fs wfn (fuel + 1) cnt (WalkCall.goDir p)).1.head? =
        some (WEvent.readDir (normalizeWalkPath p))) ∧
    normalizeWalkPath "/root" = "root" ∧
    WalkFile false walkTreeFs (fun _ _ => none) 10 "/root" =
      ([WEvent.readDir "root", WEvent.visit "root/f1", WEvent.visit "root/sub",
        WEvent.readDir "root/sub", WEvent.visit "root/sub/f2"], 2, none) ∧
    WalkFile false walkTreeFs (fun q _ => if q = "root/f1" then some 1 else none) 10 "/root" =
      ([WEvent.readDir "root", WEvent.visit "root/f1"], 1, some (WalkErr.visitorErr 1)) := by
  refine ⟨?_, by decide, by decide, by decide⟩
  intro fs wfn fuel cnt p
  cases h : fs cnt (normalizeWalkPath p) with
  | ok es => simp [walkRun, h]
  | permDenied => simp [walkRun, h]
  | notFound => simp [walkRun, h]
  | otherErr =>
    by_cases hne : normalizeWalkPath p = p
    · rw [hne] at h
      simp [walkRun, h, hne]
    · cases h2 : fs (cnt + 1) (normalizeWalkPath p) <;> simp [walkRun, h, hne, h2]

/-- Claim C10: with a nil receiver, every exported transfer and filesystem
operation returns the nil-client error before any I/O, FolderExists and
FileExists return false, while ReConnect (no guard: it panics on its first
field access) and CreateRemoteDirRecursive (no guard: it proceeds into its
loop, where the guarded callees make the first component fail) behave
differently. -/
theorem nil_client_guards :
    (∀ (eo : Bool) (localF : LocalStat) (remote : RemoteFile),
      UploadFile true eo localF remote = ⟨[], remote, 0, some UpErr.nilClient⟩) ∧
    (∀ (eo : Bool) (cr : Nat → Option Nat) (eo2 : Nat → Bool) (remote : RemoteFile)
        (localF : LocalStat),
      DownloadFile true eo cr eo2 remote localF = ⟨[], localF, some DErr.nilClient⟩) ∧
    (∀ (ok : Bool) (p : String), RemoveFile true ok p = ([], some nilMsg)) ∧
    (∀ (ok : Bool) (p q : String), MoveFile true ok p q = ([], some nilMsg)) ∧
    (∀ (res : Option (List FInfo)) (p : String),
      ListOp true res p = ([], Except.error nilMsg)) ∧
    (∀ (ok : Bool) (p : String), MakeDir true ok p = ([], some nilMsg)) ∧
    (∀ (ok : Bool) (p : String), RemoveDir true ok p = ([], some nilMsg)) ∧
    (∀ (ok : Bool) (p q : String), MoveDir true ok p q = ([], some nilMsg)) ∧
    (∀ (res : Option (List FInfo)) (p : String),
      ListDirs true res p = ([], Except.error nilMsg)) ∧
    (∀ (res : Option (List FInfo)) (p : String),
      ListFiles true res p = ([], Except.error nilMsg)) ∧
    (∀ (res : Option (List FInfo)) (p : String),
      ListFilesAndFolders true res p = ([], Except.error nilMsg)) ∧
    (∀ (fs : Nat → String → ListResult) (wfn : String → FInfo → Option Nat)
        (fuel : Nat) (p : String),
      WalkFile true fs wfn fuel p = ([], 0, some WalkErr.nilClient)) ∧
    (∀ (res : Option FInfo) (p : String),
      FileInfo true res p = ([], Except.error nilMsg)) ∧
    (∀ (eo : Bool) (localF : LocalStat) (remote : RemoteFile),
      UploadFileWithProgress true eo localF remote = ⟨[], remote, 0, some UpErr.nilClient⟩) ∧
    (∀ (eo : Bool) (remote : RemoteFile) (localF : LocalStat),
      DownloadFileWithProgress true eo remote localF = ⟨[], localF, some DErr.nilClient⟩) ∧
    (∀ (ok : Bool) (p : String), FolderExists true ok p = ([], false)) ∧
    (∀ (ok : Bool) (p : String), FileExists true ok p = ([], false)) ∧
    (∀ (s : SessState) (authOk : Bool) (dialRes sftpRes : Option Nat),
      ReConnectTop true s authOk dialRes sftpRes = NilDeref.panicked) ∧
    (∀ fex mkOk : String → Bool,
      CreateRemoteDirRecursive true fex mkOk "a/b" =
        ([MdEvent.checkExists "a", MdEvent.mkdir "a"],
         some (MdErr.createFailed "a" nilMsg))) := by
  refine ⟨?_, ?_, ?_, ?_, ?_, ?_, ?_, ?_, ?_, ?_, ?_, ?_, ?_, ?_, ?_, ?_, ?_, ?_, ?_⟩ <;>
    intros <;> rfl

end Sftpc
